import Mathlib

/-!
Verification of the telegram_metatrader_app core: the signal parser
(`app/telegram_bot/bot.py`, `parse_message`), the order lifecycle manager
(`app/core/logic.py`, `process_telegram_signal`), the persistence helpers
(`app/db/models.py`) and the execution-backend adapter
(`app/mt5/connector.py`, `place_order`).

The Python code is shallowly embedded: dictionaries become structures with
`Option` fields for keys that may be absent or `None`, Python `float` values
are modelled as `Rat` (the code only compares them with zero and stores
them, so exact rationals are a faithful model of the decimal literals
involved), exceptions become explicit control flow, and the behaviour of the
external collaborators (SQLAlchemy session, MetaTrader5 module) is an
explicit environment record: each collaborator operation can either succeed
or raise, and the MT5 query results are environment fields.

Scope notes on `pyFloat?` (the model of Python `float(str)`): it covers
optionally signed decimal literals with optional fraction and exponent and
surrounding ASCII whitespace; the exotic accepted forms `inf`, `nan` and
underscore digit separators are treated as unconvertible, and `str.strip`
and the regex class `\s` are modelled over ASCII whitespace.
-/

/-! ## Python string primitives -/

/-- ASCII whitespace, the characters stripped by `str.strip()` and matched
by the regex class. -/
def isPySpace (c : Char) : Bool :=
  c = ' ' || c = '\t' || c = '\n' || c = '\r' || c = '\x0b' || c = '\x0c'

def isDigitChar (c : Char) : Bool := '0' ≤ c && c ≤ '9'

def isLetterA (c : Char) : Bool := ('A' ≤ c && c ≤ 'Z') || ('a' ≤ c && c ≤ 'z')

def toLowerA (c : Char) : Char :=
  if 'A' ≤ c && c ≤ 'Z' then Char.ofNat (c.toNat + 32) else c

def toUpperA (c : Char) : Char :=
  if 'a' ≤ c && c ≤ 'z' then Char.ofNat (c.toNat - 32) else c

/-- Python `str.upper()` on the ASCII fragment. -/
def pyUpper (s : String) : String := String.mk (s.toList.map toUpperA)

/-- Python `str.lower()` on the ASCII fragment. -/
def pyLower (s : String) : String := String.mk (s.toList.map toLowerA)

/-- Python `str.capitalize()`: first character upper-cased, the rest
lower-cased. -/
def pyCapitalize (cs : List Char) : List Char :=
  match cs with
  | [] => []
  | c :: r => toUpperA c :: r.map toLowerA

/-- Python `str.strip()` (ASCII whitespace), on a character list. -/
def pyStrip (cs : List Char) : List Char :=
  ((cs.dropWhile isPySpace).reverse.dropWhile isPySpace).reverse

/-- Python `text.split('\n')`. -/
def splitLines : List Char → List (List Char)
  | [] => [[]]
  | c :: cs =>
    if c = '\n' then [] :: splitLines cs
    else
      match splitLines cs with
      | [] => [[c]]
      | l :: ls => (c :: l) :: ls

/-- Python `s[:n]` character slicing. -/
def pyTake (n : Nat) (s : String) : String := String.mk (s.toList.take n)

def digitVal (c : Char) : Nat := c.toNat - '0'.toNat

def digitsToNat (ds : List Char) : Nat :=
  List.foldl (fun a c => a * 10 + digitVal c) 0 ds

/-! ## Python `float(str)`

All rational values are built with `mkRat` from integer parts so that they
evaluate by kernel reduction. -/

/-- The rational value `sg * ip.fp * 10^e` of a signed decimal literal with
integer digits `ip`, fraction digits `fp` and exponent `e`. -/
def decValue (sg : Int) (ip fp : List Char) (e : Int) : Rat :=
  let M : Nat := digitsToNat ip * 10 ^ fp.length + digitsToNat fp
  let D : Nat := 10 ^ fp.length
  match e with
  | .ofNat k => mkRat (sg * (M * 10 ^ k : Nat)) D
  | .negSucc k => mkRat (sg * M) (D * 10 ^ (k + 1))

/-- Optional sign character, returning the sign and the rest. -/
def signSplit : List Char → Int × List Char
  | '+' :: r => (1, r)
  | '-' :: r => (-1, r)
  | r => (1, r)

/-- Optional exponent suffix `[eE][+-]?digits`, which must consume the whole
remaining input; returns the exponent. -/
def expPart? : List Char → Option Int
  | [] => some 0
  | e :: rest =>
    if e = 'e' || e = 'E' then
      let (sg, rest2) := signSplit rest
      let ds := rest2.takeWhile isDigitChar
      let rest3 := rest2.dropWhile isDigitChar
      if ds.isEmpty || !rest3.isEmpty then none
      else some (sg * (digitsToNat ds : Int))
    else none

/-- Unsigned decimal literal `digits [. digits] | . digits` with optional
exponent; the whole input must be consumed.  Returns integer digits,
fraction digits and exponent. -/
def floatLit? (cs : List Char) : Option (List Char × List Char × Int) :=
  let ip := cs.takeWhile isDigitChar
  let r1 := cs.dropWhile isDigitChar
  match r1 with
  | '.' :: r2 =>
    let fp := r2.takeWhile isDigitChar
    let r3 := r2.dropWhile isDigitChar
    if ip.isEmpty && fp.isEmpty then none
    else (expPart? r3).map (fun e => (ip, fp, e))
  | _ =>
    if ip.isEmpty then none else (expPart? r1).map (fun e => (ip, [], e))

/-- Model of Python `float(s)` for a string argument: strips surrounding
whitespace, accepts an optional sign and a decimal literal; `none` models a
raised `ValueError`. -/
def pyFloat? (s : String) : Option Rat :=
  let cs := s.toList.dropWhile isPySpace
  let cs2 := (cs.reverse.dropWhile isPySpace).reverse
  let (sg, body) := signSplit cs2
  (floatLit? body).map (fun p => decValue sg p.1 p.2.1 p.2.2)

/-! ## Regex fragments used by the parser

Each Python regex in `bot.py` is compiled by hand into a deterministic
matcher.  This is sound because in every pattern the adjacent greedy pieces
draw from disjoint character classes (digits vs. `.` vs. whitespace vs.
letters vs. `-`), so greedy maximal munch without backtracking computes
exactly the regex match. -/

/-- Case-insensitive literal: consume `pat` from the front of `cs`
(ignoring ASCII case) and return the rest. -/
def dropCIAux : List Char → List Char → Option (List Char)
  | [], cs => some cs
  | _ :: _, [] => none
  | p :: ps, c :: cs => if toLowerA c = toLowerA p then dropCIAux ps cs else none

def dropCI (pat : String) (cs : List Char) : Option (List Char) :=
  dropCIAux pat.toList cs

/-- The numeric token `\d+\.?\d*`: returns the matched characters and the
rest of the input. -/
def numTok (cs : List Char) : Option (List Char × List Char) :=
  let ds := cs.takeWhile isDigitChar
  let r := cs.dropWhile isDigitChar
  if ds.isEmpty then none
  else
    match r with
    | '.' :: r2 => some (ds ++ '.' :: r2.takeWhile isDigitChar, r2.dropWhile isDigitChar)
    | _ => some (ds, r)

/-- Model of `re.search(r"(\d+\.?\d*)", s)` followed by `float` on the captured
group, used for `parsed_entry_price` in `add_order`: the leftmost match
starts at the first digit of the string. -/
def firstNumberAux : List Char → Option Rat
  | [] => none
  | c :: cs =>
    if isDigitChar c then
      let ds := (c :: cs).takeWhile isDigitChar
      let r := (c :: cs).dropWhile isDigitChar
      match r with
      | '.' :: r2 => some (decValue 1 ds (r2.takeWhile isDigitChar) 0)
      | _ => some (decValue 1 ds [] 0)
    else firstNumberAux cs

def firstNumber? (s : String) : Option Rat := firstNumberAux s.toList

/-- Model of `re.sub(r'\s*-\s*', '-', s)`: every hyphen together with the whitespace
around it is replaced by a bare hyphen.  One left-to-right pass; the first
argument says whether we are right after a replaced hyphen (its trailing
`\s*` still consuming), the second buffers a pending whitespace run. -/
def normRangeAux : Bool → List Char → List Char → List Char
  | _, buf, [] => buf.reverse
  | afterH, buf, c :: cs =>
    if isPySpace c then
      if afterH then normRangeAux true buf cs
      else normRangeAux false (c :: buf) cs
    else if c = '-' then '-' :: normRangeAux true [] cs
    else buf.reverse ++ c :: normRangeAux false [] cs

def normRange (cs : List Char) : List Char := normRangeAux false [] cs

/-- The header pattern
`🌟\s*(?P<instrument>[A-Z]+)\s+(?P<action>Sell|Buy)\s*-\s*(?P<entry_range>\d+\.?\d*\s*-\s*\d+\.?\d*)`
with `re.IGNORECASE`, anchored at the start of the stripped line
(`re.match`).  Under IGNORECASE the class `[A-Z]` also matches lower-case
ASCII letters.  Returns the raw captures: instrument, action, entry range
(the last including any internal whitespace, exactly as captured). -/
def headerMatch (cs : List Char) : Option (List Char × List Char × List Char) :=
  match cs with
  | '🌟' :: r0 =>
    let r1 := r0.dropWhile isPySpace
    let inst := r1.takeWhile isLetterA
    let r2 := r1.dropWhile isLetterA
    if inst.isEmpty then none
    else
      let sp := r2.takeWhile isPySpace
      let r3 := r2.dropWhile isPySpace
      if sp.isEmpty then none
      else
        let act? : Option (List Char × List Char) :=
          match dropCI "Sell" r3 with
          | some r4 => some (r3.take 4, r4)
          | none =>
            match dropCI "Buy" r3 with
            | some r4 => some (r3.take 3, r4)
            | none => none
        match act? with
        | none => none
        | some (act, r4) =>
          let r5 := r4.dropWhile isPySpace
          match r5 with
          | '-' :: r6 =>
            let r7 := r6.dropWhile isPySpace
            match numTok r7 with
            | none => none
            | some (numA, r8) =>
              let spA := r8.takeWhile isPySpace
              let r9 := r8.dropWhile isPySpace
              match r9 with
              | '-' :: r10 =>
                let spB := r10.takeWhile isPySpace
                let r11 := r10.dropWhile isPySpace
                match numTok r11 with
                | none => none
                | some (numB, _) =>
                  some (inst, act, numA ++ spA ++ '-' :: (spB ++ numB))
              | _ => none
          | _ => none
  | _ => none

/-- The take-profit pattern `🔛\s*TP\s*=?\s*(\d+\.?\d*)` with IGNORECASE,
anchored at the start of the stripped line; returns the captured number. -/
def tpMatch (cs : List Char) : Option (List Char) :=
  match cs with
  | '🔛' :: r0 =>
    let r1 := r0.dropWhile isPySpace
    match dropCI "TP" r1 with
    | none => none
    | some r2 =>
      let r3 := r2.dropWhile isPySpace
      let r4 := match r3 with | '=' :: t => t | _ => r3
      let r5 := r4.dropWhile isPySpace
      (numTok r5).map Prod.fst
  | _ => none

/-- The stop-loss pattern `❎\s*(?:STOP\s*LOSS|SL)\s*(\d+\.?\d*)` with
IGNORECASE, anchored at the start of the stripped line; the first
alternative is tried first, as in the regex. -/
def slMatch (cs : List Char) : Option (List Char) :=
  match cs with
  | '❎' :: r0 =>
    let r1 := r0.dropWhile isPySpace
    let kw1 : Option (List Char) :=
      match dropCI "STOP" r1 with
      | some r2 => dropCI "LOSS" (r2.dropWhile isPySpace)
      | none => none
    let kw : Option (List Char) :=
      match kw1 with
      | some r => some r
      | none => dropCI "SL" r1
    match kw with
    | none => none
    | some r3 => (numTok (r3.dropWhile isPySpace)).map Prod.fst
  | _ => none

/-! ## The parser `parse_message` -/

/-- The message id handed to `parse_message`; Python passes an `int`, but
the lifecycle code treats it as an arbitrary dictionary value, testing
truthiness and applying `str`. -/
inductive MsgId where
  | int (n : Int)
  | str (s : String)
deriving DecidableEq

/-- Python truthiness of the id: `0`, `""` are falsy. -/
def MsgId.truthy : MsgId → Bool
  | .int n => n != 0
  | .str s => s != ""

/-- Python `str(...)` of the id. -/
def MsgId.toStr : MsgId → String
  | .int n => toString n
  | .str s => s

/-- The `volume` entry of the parsed dictionary: key absent, key bound to
`None`, or a number. -/
inductive VolField where
  | absent
  | noneV
  | num (q : Rat)
deriving DecidableEq

/-- The dictionary produced by `parse_message` and consumed by
`process_telegram_signal`.  `Option` fields model keys that `dict.get`
reports as missing/`None`. -/
structure ParsedData where
  telegram_message_id : Option MsgId
  instrument : String
  action : String
  entry_range : Option String
  tps : Option (List String)
  sl : Option String
  volume : VolField
deriving DecidableEq

/-- Mutable dictionary state built up line by line inside `parse_message`. -/
structure PState where
  tps : List String
  instrument : Option String
  action : Option String
  entry_range : Option String
  sl : Option String
  signal_match_found : Bool
deriving DecidableEq

def PState.init : PState :=
  { tps := [], instrument := none, action := none, entry_range := none,
    sl := none, signal_match_found := false }

/-- The TP/SL checks applied to a (stripped) line that did not match the
header on this iteration. -/
def tpSlStep (st : PState) (line : List Char) : PState :=
  match tpMatch line with
  | some n => { st with tps := st.tps ++ [String.mk n] }
  | none =>
    match slMatch line with
    | some n => { st with sl := some (String.mk n) }
    | none => st

/-- One iteration of the line loop of `parse_message`: strip the line, try
the header pattern only while no header has been found (a header match
`continue`s past the TP/SL checks), then the TP and SL patterns. -/
def stepLine (st : PState) (raw : List Char) : PState :=
  let line := pyStrip raw
  if st.signal_match_found then tpSlStep st line
  else
    match headerMatch line with
    | some (inst, act, er) =>
      { st with
        instrument := some (String.mk (inst.map toUpperA)),
        action := some (String.mk (pyCapitalize act)),
        entry_range := some (String.mk (normRange er)),
        signal_match_found := true }
    | none => tpSlStep st line

/-- Model of `parse_message(message_text, message_id)` from `bot.py`: split on
newlines, fold the line step, and return the dictionary when instrument,
action and entry range were all found; an empty TP list is deleted from the
dictionary (modelled as `none`). -/
def parse_message (message_text : String) (message_id : MsgId) : Option ParsedData :=
  let fin := (splitLines message_text.toList).foldl stepLine PState.init
  match fin.instrument, fin.action, fin.entry_range with
  | some i, some a, some er =>
    some { telegram_message_id := some message_id, instrument := i, action := a,
           entry_range := some er,
           tps := if fin.tps = [] then none else some fin.tps,
           sl := fin.sl, volume := .absent }
  | _, _, _ => none


/-! ## Data model: the persisted `Order` and the store

`app/db/models.py`.  The store is a list of rows in insertion order plus
the next autoincrement id.  Floats are `Rat`, `DateTime` is an abstract
`Nat` tick supplied by the environment. -/

structure Order where
  id : Nat
  telegram_message_id : String
  instrument : String
  action : String
  entry_range : Option String
  parsed_entry_price : Option Rat
  volume : Rat
  tps : Option (List String)
  sl : Option String
  mt5_order_id : Option Int
  status : String
  status_message : Option String
  executed_price : Option Rat
  executed_time : Option Nat
deriving DecidableEq

structure DB where
  orders : List Order
  nextId : Nat
deriving DecidableEq

/-- Model of `db.query(Order).filter(Order.id == oid).first()`. -/
def findOrder (db : DB) (oid : Nat) : Option Order :=
  db.orders.find? (fun o => o.id == oid)

/-- Model of `get_order_by_telegram_id` from `models.py`: first order whose
`telegram_message_id` equals `str(telegram_message_id)`. -/
def get_order_by_telegram_id (db : DB) (tmid : String) : Option Order :=
  db.orders.find? (fun o => o.telegram_message_id == tmid)

/-- Replace the first row with the given id (the row `query(...).first()`
returns), leaving every other row untouched. -/
def setFirst (l : List Order) (oid : Nat) (f : Order → Order) : List Order :=
  match l with
  | [] => []
  | o :: r => if o.id == oid then f o :: r else o :: setFirst r oid f

/-- The field mutations of `update_order_status`: `status` is always
assigned; `mt5_order_id`, `executed_price`, `status_message` only when the
argument is not `None`; `executed_time` is stamped when the new status
lower-cases to `executed` and no stamp exists yet. -/
def applyUpdate (mt5oid : Option Int) (st : String) (price : Option Rat)
    (msg : Option String) (now : Nat) (o : Order) : Order :=
  { o with
    status := st,
    mt5_order_id := match mt5oid with | some m => some m | none => o.mt5_order_id,
    executed_price := match price with | some p => some p | none => o.executed_price,
    status_message := match msg with | some m => some m | none => o.status_message,
    executed_time :=
      if pyLower st = "executed" && o.executed_time == none then some now
      else o.executed_time }

/-- Model of `update_order_status` from `models.py`: `none` models the order-id not
being found (the function returns `None` without committing anything). -/
def update_order_status (db : DB) (oid : Nat) (mt5oid : Option Int) (st : String)
    (price : Option Rat) (msg : Option String) (now : Nat) : Option DB :=
  match findOrder db oid with
  | none => none
  | some _ => some { db with orders := setFirst db.orders oid (applyUpdate mt5oid st price msg now) }

/-- Observed status of a row: `db.query(Order.status).filter(...).scalar()`. -/
def statusOf (db : DB) (oid : Nat) : Option String := (findOrder db oid).map (fun o => o.status)

def statusMsgOf (db : DB) (oid : Nat) : Option (Option String) :=
  (findOrder db oid).map (fun o => o.status_message)

def volumeOf (db : DB) (oid : Nat) : Option Rat := (findOrder db oid).map (fun o => o.volume)

def executedTimeOf (db : DB) (oid : Nat) : Option (Option Nat) :=
  (findOrder db oid).map (fun o => o.executed_time)

/-! ## The MT5 connector `place_order`

`app/mt5/connector.py`.  The MetaTrader5 module's responses are environment
data: the symbol-info lookups, the symbol selection, the current tick and
the `order_send` result.  `place_order` returns the `order_send` request it
built (when it reached that point) together with the dictionary (or `None`)
it hands back; the caller only ever reads the keys `order_id`, `price` and
`comment`, so the dictionary is modelled by those keys' presence and an
error marker. -/

structure SymInfo where
  visible : Bool
deriving DecidableEq

structure Tick where
  ask : Rat
  bid : Rat
deriving DecidableEq

structure SendResult where
  retcode : Int
  order : Int
  price : Rat
  volume : Rat
  deal : Int
  comment : String
  request_id : Int
deriving DecidableEq

structure MT5Env where
  symbolInfo : Option SymInfo
  symbolSelectOk : Bool
  symbolInfoAfterSelect : Option SymInfo
  tick : Option Tick
  orderSendResult : Option SendResult
  lastErrorStr : String
deriving DecidableEq

def TRADE_RETCODE_DONE : Int := 10009
def TRADE_RETCODE_PLACED : Int := 10008
def ORDER_TYPE_BUY : Nat := 0
def ORDER_TYPE_SELL : Nat := 1

/-- The `order_send` request dictionary; only the fields that vary are
kept (`deviation`, `magic`, `comment`, `type_time`, `type_filling` are
constants in the code). -/
structure OrderRequest where
  symbol : String
  volume : Rat
  order_kind : Nat
  price : Rat
  sl : Option Rat
  tp : Option Rat
deriving DecidableEq

/-- The dictionary `place_order` returns, restricted to the keys the
lifecycle manager reads.  `order_id`/`price` are `none` when the key is
absent from the dictionary. -/
structure POResult where
  order_id : Option Int
  price : Option Rat
  comment : Option String
  errMark : Bool
deriving DecidableEq

/-- The early-error dictionaries `{"error": ..., "retcode": -1, "comment": c}`:
no `order_id`, no `price`. -/
def errDict (c : String) : POResult :=
  { order_id := none, price := none, comment := some c, errMark := true }

/-- Model of `place_order(instrument, order_type, volume, sl, tp)` from
`connector.py`.  First component: the request given to `order_send`, when
control reached it.  SL/TP are attached to the request only when strictly
positive. -/
def place_order (m : MT5Env) (instrument : String) (order_type : String)
    (volume : Rat) (sl tp : Option Rat) : Option OrderRequest × Option POResult :=
  match m.symbolInfo with
  | none => (none, some (errDict ("MT5 error: " ++ m.lastErrorStr)))
  | some si =>
    let si2? : Option SymInfo :=
      if si.visible then some si
      else if m.symbolSelectOk then m.symbolInfoAfterSelect else none
    match si2? with
    | none => (none, some (errDict ("MT5 error: " ++ m.lastErrorStr)))
    | some _ =>
      match m.tick with
      | none => (none, some (errDict ("MT5 error: " ++ m.lastErrorStr)))
      | some t =>
        let kindPrice? : Option (Nat × Rat) :=
          if pyUpper order_type = "BUY" then some (ORDER_TYPE_BUY, t.ask)
          else if pyUpper order_type = "SELL" then some (ORDER_TYPE_SELL, t.bid)
          else none
        match kindPrice? with
        | none => (none, some (errDict "Application error: Invalid order type"))
        | some kp =>
          if kp.2 = 0 then (none, some (errDict "MT5 error: Could not get valid price"))
          else
            let slv : Option Rat :=
              match sl with
              | some v => if v > 0 then some v else none
              | none => none
            let tpv : Option Rat :=
              match tp with
              | some v => if v > 0 then some v else none
              | none => none
            let req : OrderRequest :=
              { symbol := instrument, volume := volume, order_kind := kp.1,
                price := kp.2, sl := slv, tp := tpv }
            match m.orderSendResult with
            | none =>
              (some req, some { order_id := none, price := none,
                                comment := some m.lastErrorStr, errMark := true })
            | some r =>
              if r.retcode ≠ TRADE_RETCODE_DONE ∧ r.retcode ≠ TRADE_RETCODE_PLACED then
                (some req, some { order_id := some r.order, price := some r.price,
                                  comment := some r.comment, errMark := true })
              else
                (some req, some { order_id := some r.order, price := some r.price,
                                  comment := some r.comment, errMark := false })

/-! ## The lifecycle manager `process_telegram_signal`

`app/core/logic.py`.  The environment says, for each collaborator
operation, whether it raises (and with what `str(e)`); `now` is the clock
`datetime.utcnow()` reads. -/

structure Env where
  sessionLocal : Option String
  queryRaise : Option String
  addRaise : Option String
  updateMainRaise : Option String
  guardQueryRaise : Option String
  updateErrRaise : Option String
  closeRaise : Option String
  mt5Raise : Option String
  mt5 : MT5Env
  now : Nat
deriving DecidableEq

/-- Model of `str(order_data.get("telegram_message_id"))` inside `add_order`. -/
def tmidStr (pd : ParsedData) : String :=
  match pd.telegram_message_id with
  | some m => m.toStr
  | none => "None"

/-- Model of `float(order_data.get("volume", 0.01))`: the default applies only when
the key is absent; `float(None)` raises `TypeError`. -/
def volVal : VolField → Option Rat
  | .absent => some (mkRat 1 100)
  | .noneV => none
  | .num q => some q

/-- Model of `add_order` from `models.py`.  `Except.error` models a raised
exception (`float(None)` on the volume, or the insert/commit failing —
e.g. the `telegram_message_id` uniqueness violation); in that case the
session is rolled back and the store is unchanged. -/
def newOrderOf (db : DB) (pd : ParsedData) (vol : Rat) : Order :=
  { id := db.nextId, telegram_message_id := tmidStr pd, instrument := pd.instrument,
    action := pd.action, entry_range := pd.entry_range,
    parsed_entry_price := pd.entry_range.bind firstNumber?, volume := vol,
    tps := pd.tps, sl := pd.sl, mt5_order_id := none, status := "pending",
    status_message := none, executed_price := none, executed_time := none }

def add_order (env : Env) (db : DB) (pd : ParsedData) : Except String (DB × Order) :=
  match volVal pd.volume with
  | none => .error "TypeError: float() argument must be a string or a number, not NoneType"
  | some vol =>
    let newOrder := newOrderOf db pd vol
    match env.addRaise with
    | some e => .error e
    | none => .ok ({ orders := db.orders ++ [newOrder], nextId := db.nextId + 1 }, newOrder)

/-- The `except Exception` handler at the bottom of
`process_telegram_signal` (the terminal-state guard): only runs its body
when an order was admitted (`new_order_id and new_order_obj` truthy);
re-reads the current status and writes `error` with the truncated
diagnostic only when the status is neither `executed` nor `failed`; any
exception during this recovery is swallowed by the inner `try`. -/
def unexpectedHandler (env : Env) (db : DB) (admitted : Option Order) (e : String) : DB :=
  match admitted with
  | none => db
  | some ord =>
    if ord.id == 0 then db
    else
      match env.guardQueryRaise with
      | some _ => db
      | none =>
        if statusOf db ord.id = some "executed" ∨ statusOf db ord.id = some "failed" then db
        else
          match update_order_status db ord.id none "error" none
              (some ("Core logic processing error: " ++ pyTake 250 e)) env.now with
          | none => db
          | some db2 =>
            match env.updateErrRaise with
            | some _ => db
            | none => db2

/-- A main-path `update_order_status` call site: a commit failure (only
possible when the row was found) raises, the rollback leaves the store
unchanged, and the exception lands in the unexpected-failure handler. -/
def applyStatus (env : Env) (db : DB) (ord : Order) (mt5oid : Option Int) (st : String)
    (price : Option Rat) (msg : Option String) : DB :=
  match update_order_status db ord.id mt5oid st price msg env.now with
  | none => db
  | some db2 =>
    match env.updateMainRaise with
    | some e => unexpectedHandler env db (some ord) e
    | none => db2

/-- Outcome of converting an optional SL/TP field with `float`. -/
inductive ParamRes where
  | ok (v : Option Rat)
  | invalid (raw : String)
deriving DecidableEq

/-- Model of `if new_order_obj.sl:` then `float(new_order_obj.sl)`: `None` and the
empty string are falsy and skip conversion entirely. -/
def slResolve (sl : Option String) : ParamRes :=
  match sl with
  | none => .ok none
  | some s =>
    if s = "" then .ok none
    else
      match pyFloat? s with
      | some v => .ok (some v)
      | none => .invalid s

/-- Model of `if new_order_obj.tps and isinstance(...) and len(...) > 0:` then
`float(tps[0])`. -/
def tpResolve (tps : Option (List String)) : ParamRes :=
  match tps with
  | some (t :: _) =>
    (match pyFloat? t with
     | some v => .ok (some v)
     | none => .invalid t)
  | _ => .ok none

/-- One call recorded against the execution backend (the arguments of a
`place_order` invocation). -/
structure PlaceCall where
  instrument : String
  order_type : String
  volume : Rat
  sl : Option Rat
  tp : Option Rat
deriving DecidableEq

/-- The diagnostic recorded on a backend failure: the backend comment when
present and truthy, the generic text otherwise. -/
def backendFailMsg (r? : Option POResult) : String :=
  match r? with
  | some r =>
    match r.comment with
    | some c =>
      if c = "" then "MT5 order execution failed. Check MT5 connector logs."
      else "MT5 order failed: " ++ c
    | none => "MT5 order execution failed. Check MT5 connector logs."
  | none => "MT5 order execution failed. Check MT5 connector logs."

/-- Applying the backend outcome: `executed` when the result dictionary has
a truthy `order_id` (reading `price`, a `KeyError` when absent going to the
unexpected-failure handler), `failed` otherwise. -/
def outcomeUpdate (env : Env) (db1 : DB) (ord : Order) (res : Option POResult) : DB :=
  match res with
  | some r =>
    match r.order_id with
    | some oid =>
      if oid ≠ 0 then
        match r.price with
        | some p =>
          applyStatus env db1 ord (some oid) "executed" (some p)
            (some "Order executed successfully.")
        | none => unexpectedHandler env db1 (some ord) "KeyError: price"
      else
        applyStatus env db1 ord none "failed" none (some (backendFailMsg res))
    | none => applyStatus env db1 ord none "failed" none (some (backendFailMsg res))
  | none => applyStatus env db1 ord none "failed" none (some (backendFailMsg res))

/-- Everything after the order was admitted as `pending`: SL/TP parameter
resolution, the backend call, and the outcome update.  Returns the store
together with the `place_order` invocations and the `order_send` requests
that occurred. -/
def afterAdmission (env : Env) (db1 : DB) (ord : Order) : DB × List PlaceCall × List OrderRequest :=
  match slResolve ord.sl with
  | .invalid s =>
    (applyStatus env db1 ord none "failed" none (some ("Invalid SL value: " ++ s)), [], [])
  | .ok sl_price =>
    match tpResolve ord.tps with
    | .invalid t =>
      (applyStatus env db1 ord none "failed" none (some ("Invalid TP value: " ++ t)), [], [])
    | .ok tp_price =>
      let call : PlaceCall :=
        { instrument := ord.instrument, order_type := pyUpper ord.action,
          volume := ord.volume, sl := sl_price, tp := tp_price }
      match env.mt5Raise with
      | some e => (unexpectedHandler env db1 (some ord) e, [call], [])
      | none =>
        let pr := place_order env.mt5 ord.instrument (pyUpper ord.action) ord.volume
          sl_price tp_price
        (outcomeUpdate env db1 ord pr.2, [call], pr.1.toList)

/-- The body of the outer `try`: dedup lookup, admission, then
`afterAdmission`.  A raise in the dedup query reaches the outer handler
with no admitted order; a raise inside `add_order` is caught by the inner
`try` (rollback and plain `return`). -/
def tryBody (env : Env) (mid : MsgId) (pd : ParsedData) (db : DB) :
    DB × List PlaceCall × List OrderRequest :=
  match env.queryRaise with
  | some e => (unexpectedHandler env db none e, [], [])
  | none =>
    match get_order_by_telegram_id db mid.toStr with
    | some _ => (db, [], [])
    | none =>
      match add_order env db pd with
      | .error _ => (db, [], [])
      | .ok p => afterAdmission env p.1 p.2

/-- Result of one `process_telegram_signal` invocation: the store, the
backend traffic, whether `SessionLocal()` was reached, and the exception
that escaped the function (if any). -/
structure ProcResult where
  db : DB
  placeCalls : List PlaceCall
  sends : List OrderRequest
  sessionOpened : Bool
  raised : Option String
deriving DecidableEq

/-- Model of `process_telegram_signal(parsed_data)` from `logic.py`.  The missing-id
guard runs before `SessionLocal()`; `SessionLocal()` itself runs before
the `try`, so an exception there escapes; everything inside the `try` is
absorbed (possibly via the unexpected-failure handler); `db.close()` in the
`finally` is unguarded, so an exception there escapes too. -/
def process_telegram_signal (env : Env) (pd : ParsedData) (db : DB) : ProcResult :=
  match pd.telegram_message_id with
  | none => { db := db, placeCalls := [], sends := [], sessionOpened := false, raised := none }
  | some mid =>
    if mid.truthy = false then
      { db := db, placeCalls := [], sends := [], sessionOpened := false, raised := none }
    else
      match env.sessionLocal with
      | some e =>
        { db := db, placeCalls := [], sends := [], sessionOpened := true, raised := some e }
      | none =>
        let r := tryBody env mid pd db
        { db := r.1, placeCalls := r.2.1, sends := r.2.2, sessionOpened := true,
          raised := env.closeRaise }

/-! ## Concrete fixtures

Shared concrete inputs used to instantiate the theorems below on closed
values. -/

/-- A fully healthy MT5 terminal: visible symbol, live tick, `order_send`
succeeding with ticket 777. -/
def mt5OK : MT5Env :=
  { symbolInfo := some { visible := true }, symbolSelectOk := true,
    symbolInfoAfterSelect := none,
    tick := some { ask := mkRat 2051 1, bid := mkRat 2050 1 },
    orderSendResult := some { retcode := 10009, order := 777, price := mkRat 2050 1,
                              volume := mkRat 1 100, deal := 5, comment := "done",
                              request_id := 1 },
    lastErrorStr := "lasterr" }

/-- An environment in which no collaborator operation raises. -/
def envOK : Env :=
  { sessionLocal := none, queryRaise := none, addRaise := none, updateMainRaise := none,
    guardQueryRaise := none, updateErrRaise := none, closeRaise := none, mt5Raise := none,
    mt5 := mt5OK, now := 42 }

/-- An empty store whose next autoincrement id is 1. -/
def dbEmpty : DB := { orders := [], nextId := 1 }

/-- A well-formed parsed signal (the worked example from `logic.py`'s test
block, adapted). -/
def pdGold : ParsedData :=
  { telegram_message_id := some (.int 11), instrument := "GOLD", action := "Sell",
    entry_range := some "2050.5-2051.0", tps := some ["2048.0", "2045.5"],
    sl := some "2055.0", volume := .absent }

/-- A pending row as admitted for `pdGold` against `dbEmpty`. -/
def rowPending : Order := newOrderOf dbEmpty pdGold (mkRat 1 100)

/-- An `executed` row with id 1, stamped at time 40. -/
def rowExecuted : Order := { rowPending with status := "executed", executed_time := some 40 }

/-- A store holding one `executed` row with id 1. -/
def dbExecuted : DB := { orders := [rowExecuted], nextId := 2 }

/-- A store holding one `pending` row with id 1. -/
def dbPending : DB := { orders := [rowPending], nextId := 2 }

/-! ## Invariant lemmas

Every mutation performed after admission goes through
`update_order_status`, which only touches the status block of a row
(`status`, `mt5_order_id`, `executed_price`, `status_message`,
`executed_time`).  `OrderCore` is the complement — the immutable part of a
row — and the lemmas below show it is preserved by every post-admission
step. -/

structure OrderCore where
  id : Nat
  telegram_message_id : String
  instrument : String
  action : String
  entry_range : Option String
  parsed_entry_price : Option Rat
  volume : Rat
  tps : Option (List String)
  sl : Option String
deriving DecidableEq

def coreOf (o : Order) : OrderCore :=
  { id := o.id, telegram_message_id := o.telegram_message_id, instrument := o.instrument,
    action := o.action, entry_range := o.entry_range,
    parsed_entry_price := o.parsed_entry_price, volume := o.volume, tps := o.tps, sl := o.sl }

theorem coreOf_applyUpdate (m : Option Int) (st : String) (p : Option Rat)
    (g : Option String) (now : Nat) (o : Order) :
    coreOf (applyUpdate m st p g now o) = coreOf o := rfl

theorem map_coreOf_setFirst (l : List Order) (oid : Nat) (f : Order → Order)
    (hf : ∀ o, coreOf (f o) = coreOf o) :
    (setFirst l oid f).map coreOf = l.map coreOf := by
  induction l with
  | nil => rfl
  | cons o r ih =>
    by_cases h : (o.id == oid) = true
    · simp [setFirst, h, hf]
    · simp [setFirst, h, ih]

theorem update_order_status_core (db : DB) (oid : Nat) (m : Option Int) (st : String)
    (p : Option Rat) (g : Option String) (now : Nat) (db2 : DB)
    (h : update_order_status db oid m st p g now = some db2) :
    db2.orders.map coreOf = db.orders.map coreOf ∧ db2.nextId = db.nextId := by
  unfold update_order_status at h
  cases hf : findOrder db oid with
  | none => rw [hf] at h; cases h
  | some o =>
    rw [hf] at h
    cases h
    exact ⟨map_coreOf_setFirst _ _ _ (fun o => rfl), rfl⟩

theorem unexpectedHandler_core (env : Env) (db : DB) (adm : Option Order) (e : String) :
    (unexpectedHandler env db adm e).orders.map coreOf = db.orders.map coreOf ∧
    (unexpectedHandler env db adm e).nextId = db.nextId := by
  unfold unexpectedHandler
  cases adm with
  | none => exact ⟨rfl, rfl⟩
  | some ord =>
    cases h0 : (ord.id == 0) with
    | true => simp [h0]
    | false =>
      simp only [h0, Bool.false_eq_true, if_false]
      cases hg : env.guardQueryRaise with
      | some x => exact ⟨rfl, rfl⟩
      | none =>
        by_cases hterm : statusOf db ord.id = some "executed" ∨ statusOf db ord.id = some "failed"
        · simp [if_pos hterm]
        · simp only [if_neg hterm]
          cases hu : update_order_status db ord.id none "error" none
              (some ("Core logic processing error: " ++ pyTake 250 e)) env.now with
          | none => exact ⟨rfl, rfl⟩
          | some db2 =>
            cases he : env.updateErrRaise with
            | some x => exact ⟨rfl, rfl⟩
            | none => exact update_order_status_core _ _ _ _ _ _ _ _ hu

theorem applyStatus_core (env : Env) (db : DB) (ord : Order) (m : Option Int) (st : String)
    (p : Option Rat) (g : Option String) :
    (applyStatus env db ord m st p g).orders.map coreOf = db.orders.map coreOf ∧
    (applyStatus env db ord m st p g).nextId = db.nextId := by
  unfold applyStatus
  cases hu : update_order_status db ord.id m st p g env.now with
  | none => exact ⟨rfl, rfl⟩
  | some db2 =>
    cases hmr : env.updateMainRaise with
    | some x => exact unexpectedHandler_core _ _ _ _
    | none => exact update_order_status_core _ _ _ _ _ _ _ _ hu

theorem outcomeUpdate_core (env : Env) (db1 : DB) (ord : Order) (res : Option POResult) :
    (outcomeUpdate env db1 ord res).orders.map coreOf = db1.orders.map coreOf ∧
    (outcomeUpdate env db1 ord res).nextId = db1.nextId := by
  unfold outcomeUpdate
  split
  · split
    · split
      · split
        · exact applyStatus_core _ _ _ _ _ _ _
        · exact unexpectedHandler_core _ _ _ _
      · exact applyStatus_core _ _ _ _ _ _ _
    · exact applyStatus_core _ _ _ _ _ _ _
  · exact applyStatus_core _ _ _ _ _ _ _

theorem afterAdmission_core (env : Env) (db1 : DB) (ord : Order) :
    (afterAdmission env db1 ord).1.orders.map coreOf = db1.orders.map coreOf ∧
    (afterAdmission env db1 ord).1.nextId = db1.nextId := by
  unfold afterAdmission
  split
  · exact applyStatus_core _ _ _ _ _ _ _
  · split
    · exact applyStatus_core _ _ _ _ _ _ _
    · split
      · exact unexpectedHandler_core _ _ _ _
      · exact outcomeUpdate_core _ _ _ _

theorem find?_map_core (p : OrderCore → Bool) (l l' : List Order)
    (h : l.map coreOf = l'.map coreOf) :
    (l.find? (fun o => p (coreOf o))).map coreOf
      = (l'.find? (fun o => p (coreOf o))).map coreOf := by
  induction l generalizing l' with
  | nil => cases l' with | nil => rfl | cons b t => simp at h
  | cons a t ih =>
    cases l' with
    | nil => simp at h
    | cons b t2 =>
      simp only [List.map_cons, List.cons.injEq] at h
      obtain ⟨h1, h2⟩ := h
      simp only [List.find?]
      rw [h1]
      cases hp : p (coreOf b) with
      | true => simp [h1]
      | false => exact ih t2 h2

theorem findOrder_eq_of_core (db db' : DB)
    (h : db.orders.map coreOf = db'.orders.map coreOf) (i : Nat) :
    (findOrder db i).map coreOf = (findOrder db' i).map coreOf :=
  find?_map_core (fun c => c.id == i) _ _ h

theorem getOrder_eq_of_core (db db' : DB)
    (h : db.orders.map coreOf = db'.orders.map coreOf) (t : String) :
    (get_order_by_telegram_id db t).map coreOf
      = (get_order_by_telegram_id db' t).map coreOf :=
  find?_map_core (fun c => c.telegram_message_id == t) _ _ h

theorem volumeOf_eq_of_core (db db' : DB)
    (h : db.orders.map coreOf = db'.orders.map coreOf) (i : Nat) :
    volumeOf db i = volumeOf db' i := by
  have hf := findOrder_eq_of_core db db' h i
  unfold volumeOf
  cases hx : findOrder db i with
  | none =>
    cases hy : findOrder db' i with
    | none => rfl
    | some o => rw [hx, hy] at hf; cases hf
  | some o =>
    cases hy : findOrder db' i with
    | none => rw [hx, hy] at hf; cases hf
    | some o2 =>
      rw [hx, hy] at hf
      have hc : coreOf o = coreOf o2 := Option.some.inj hf
      have hv : o.volume = o2.volume := congrArg OrderCore.volume hc
      simp [hv]

theorem find?_append_singleton (l : List Order) (x : Order) (q : Order → Bool)
    (h : ∀ o ∈ l, q o = false) :
    (l ++ [x]).find? q = if q x then some x else none := by
  induction l with
  | nil => cases hq : q x <;> simp [List.find?, hq]
  | cons a t ih =>
    have ha := h a (by simp)
    simp only [List.cons_append, List.find?, ha]
    exact ih (fun o ho => h o (by simp [ho]))

theorem find?_setFirst (l : List Order) (i : Nat) (f : Order → Order) (o : Order)
    (hid : ∀ x, (f x).id = x.id)
    (h : l.find? (fun x => x.id == i) = some o) :
    (setFirst l i f).find? (fun x => x.id == i) = some (f o) := by
  induction l with
  | nil => simp [List.find?] at h
  | cons a t ih =>
    cases hq : (a.id == i) with
    | true =>
      simp only [List.find?, hq] at h
      cases h
      simp [setFirst, hq, List.find?, hid]
    | false =>
      simp only [List.find?, hq] at h
      simp [setFirst, hq, List.find?, ih h]

theorem update_found (db : DB) (i : Nat) (m : Option Int) (st : String) (p : Option Rat)
    (g : Option String) (now : Nat) (o : Order) (hf : findOrder db i = some o) :
    update_order_status db i m st p g now
      = some { db with orders := setFirst db.orders i (applyUpdate m st p g now) } := by
  unfold update_order_status
  rw [hf]

theorem findOrder_update_found (db : DB) (i : Nat) (m : Option Int) (st : String)
    (p : Option Rat) (g : Option String) (now : Nat) (o : Order)
    (hf : findOrder db i = some o) :
    findOrder { db with orders := setFirst db.orders i (applyUpdate m st p g now) } i
      = some (applyUpdate m st p g now o) :=
  find?_setFirst _ _ _ _ (fun _ => rfl) hf

/-- The store right after a successful admission. -/
def admittedDB (db : DB) (pd : ParsedData) (vol : Rat) : DB :=
  { orders := db.orders ++ [newOrderOf db pd vol], nextId := db.nextId + 1 }

theorem run_admits (env : Env) (pd : ParsedData) (db : DB) (mid : MsgId) (vol : Rat)
    (h1 : pd.telegram_message_id = some mid)
    (ht : mid.truthy = true)
    (hs : env.sessionLocal = none)
    (hq : env.queryRaise = none)
    (hdup : get_order_by_telegram_id db mid.toStr = none)
    (ha : env.addRaise = none)
    (hv : volVal pd.volume = some vol) :
    process_telegram_signal env pd db =
      { db := (afterAdmission env (admittedDB db pd vol) (newOrderOf db pd vol)).1,
        placeCalls := (afterAdmission env (admittedDB db pd vol) (newOrderOf db pd vol)).2.1,
        sends := (afterAdmission env (admittedDB db pd vol) (newOrderOf db pd vol)).2.2,
        sessionOpened := true,
        raised := env.closeRaise } := by
  simp [process_telegram_signal, tryBody, add_order, admittedDB, h1, ht, hs, hq, hdup, ha, hv]

/-! ## Per-line matcher anchoring -/

theorem headerMatch_none (cs : List Char) (h : cs.head? ≠ some '🌟') :
    headerMatch cs = none := by
  cases cs with
  | nil => rfl
  | cons c r =>
    have hc : c ≠ '🌟' := fun he => h (by simp [he])
    unfold headerMatch
    split
    · rename_i r0 heq
      exact absurd (List.cons.inj heq).1 hc
    · rfl

theorem tpMatch_none (cs : List Char) (h : cs.head? ≠ some '🔛') :
    tpMatch cs = none := by
  cases cs with
  | nil => rfl
  | cons c r =>
    have hc : c ≠ '🔛' := fun he => h (by simp [he])
    unfold tpMatch
    split
    · rename_i r0 heq
      exact absurd (List.cons.inj heq).1 hc
    · rfl

theorem slMatch_none (cs : List Char) (h : cs.head? ≠ some '❎') :
    slMatch cs = none := by
  cases cs with
  | nil => rfl
  | cons c r =>
    have hc : c ≠ '❎' := fun he => h (by simp [he])
    unfold slMatch
    split
    · rename_i r0 heq
      exact absurd (List.cons.inj heq).1 hc
    · rfl

/-- C10: `parse` recognizes a header, take-profit, or stop-loss line only
when the corresponding marker glyph is the first non-whitespace content of
the line (the patterns are applied with `re.match` to the stripped line);
a line whose first non-whitespace character is not one of the three marker
glyphs contributes nothing to the parser state, hence nothing to the
Signal. -/
theorem claim_C10_markers_anchored (st : PState) (raw : List Char)
    (h1 : (pyStrip raw).head? ≠ some '🌟')
    (h2 : (pyStrip raw).head? ≠ some '🔛')
    (h3 : (pyStrip raw).head? ≠ some '❎') :
    stepLine st raw = st := by
  unfold stepLine
  have hh := headerMatch_none _ h1
  have htp := tpMatch_none _ h2
  have hsl := slMatch_none _ h3
  cases hf : st.signal_match_found with
  | true => simp [hf, tpSlStep, htp, hsl]
  | false => simp [hf, hh, tpSlStep, htp, hsl]

/-- Witness for C10: a line that mentions a marker glyph after other text
is ignored by the line step. -/
theorem claim_C10_markers_anchored_witness :
    stepLine PState.init "price 🔛TP 5".toList = PState.init :=
  claim_C10_markers_anchored PState.init "price 🔛TP 5".toList
    (by decide) (by decide) (by decide)

/-- C4: `parse` applied to the worked scenario message returns the Signal
with instrument `GOLD`, action `Sell`, entry range `2050.5-2051.0`, the two
take-profit levels in document order, and stop loss `2055.0`, for any
message id. -/
theorem claim_C4_parse_scenario (m : MsgId) :
    parse_message "🌟GOLD Sell - 2050.5-2051.0\n🔛TP =2048.0\n🔛TP =2045.5\n❎STOP LOSS 2055.0" m
      = some { telegram_message_id := some m, instrument := "GOLD", action := "Sell",
               entry_range := some "2050.5-2051.0", tps := some ["2048.0", "2045.5"],
               sl := some "2055.0", volume := .absent } := rfl

/-- Witness for C4 at a concrete message id. -/
theorem claim_C4_parse_scenario_witness :
    parse_message "🌟GOLD Sell - 2050.5-2051.0\n🔛TP =2048.0\n🔛TP =2045.5\n❎STOP LOSS 2055.0" (.int 7)
      = some { telegram_message_id := some (.int 7), instrument := "GOLD", action := "Sell",
               entry_range := some "2050.5-2051.0", tps := some ["2048.0", "2045.5"],
               sl := some "2055.0", volume := .absent } :=
  claim_C4_parse_scenario (.int 7)

/-- C9: a signal whose `telegram_message_id` is falsy — absent, `None`, the
empty string or the integer `0` — makes `process` return before
`SessionLocal()` is ever reached: the store is untouched, no backend call
happens, and nothing is raised. -/
theorem claim_C9_missing_id_guard (env : Env) (pd : ParsedData) (db : DB)
    (h : ∀ mid, pd.telegram_message_id = some mid → mid.truthy = false) :
    process_telegram_signal env pd db =
      { db := db, placeCalls := [], sends := [], sessionOpened := false, raised := none } := by
  unfold process_telegram_signal
  cases hm : pd.telegram_message_id with
  | none => rfl
  | some mid => simp [h mid hm]

/-- Witness for C9: the integer id `0` is treated as missing. -/
theorem claim_C9_missing_id_guard_witness :
    process_telegram_signal envOK { pdGold with telegram_message_id := some (.int 0) } dbEmpty
      = { db := dbEmpty, placeCalls := [], sends := [], sessionOpened := false,
          raised := none } :=
  claim_C9_missing_id_guard envOK _ dbEmpty (fun mid h => by cases h; rfl)

theorem pyLower_executed : pyLower "executed" = "executed" := by decide

/-- C6: `executed_time` is stamped exactly once, on the first update that
sets status `executed`; an update that sets status `executed` again on a
row whose stamp already exists leaves the previous stamp unchanged. -/
theorem claim_C6_executed_time_once (db : DB) (oid : Nat) (m : Option Int) (p : Option Rat)
    (g : Option String) (now t : Nat) (o : Order) (db2 : DB)
    (hf : findOrder db oid = some o)
    (hu : update_order_status db oid m "executed" p g now = some db2) :
    (o.executed_time = some t → executedTimeOf db2 oid = some (some t)) ∧
    (o.executed_time = none → executedTimeOf db2 oid = some (some now)) := by
  rw [update_found db oid m "executed" p g now o hf] at hu
  cases hu
  have hfind := findOrder_update_found db oid m "executed" p g now o hf
  constructor
  · intro hsome
    unfold executedTimeOf
    rw [hfind]
    simp [applyUpdate, hsome, pyLower_executed]
  · intro hnone
    unfold executedTimeOf
    rw [hfind]
    simp [applyUpdate, hnone, pyLower_executed]

/-- Witness for C6: a second `executed` update does not move the stamp 40,
and a first one stamps the current time 42. -/
theorem claim_C6_executed_time_once_witness :
    ((dbExecuted.orders.head?.map (fun o => o.executed_time)) = some (some 40)) ∧
    (∀ db2, update_order_status dbExecuted 1 none "executed" none none 42 = some db2 →
      executedTimeOf db2 1 = some (some 40)) := by
  refine ⟨by decide, fun db2 h => ?_⟩
  exact (claim_C6_executed_time_once dbExecuted 1 none none none 42 40
    { rowPending with status := "executed", executed_time := some 40 } db2 (by decide) h).1 (by decide)

/-- Iota-reduction equation for the handler on an admitted order. -/
theorem unexpectedHandler_some_eq (env : Env) (db : DB) (ord : Order) (e : String) :
    unexpectedHandler env db (some ord) e =
      (if (ord.id == 0) then db
       else
         match env.guardQueryRaise with
         | some _ => db
         | none =>
           if statusOf db ord.id = some "executed" ∨ statusOf db ord.id = some "failed" then db
           else
             match update_order_status db ord.id none "error" none
                 (some ("Core logic processing error: " ++ pyTake 250 e)) env.now with
             | none => db
             | some db2 =>
               match env.updateErrRaise with
               | some _ => db
               | none => db2) := rfl

/-- A terminal row is never touched by the unexpected-failure guard. -/
theorem unexpectedHandler_terminal_noop (env : Env) (db : DB) (ord : Order) (e : String)
    (hterm : statusOf db ord.id = some "executed" ∨ statusOf db ord.id = some "failed") :
    unexpectedHandler env db (some ord) e = db := by
  rw [unexpectedHandler_some_eq]
  cases h0 : (ord.id == 0) with
  | true => simp [h0]
  | false =>
    simp only [h0, Bool.false_eq_true, if_false]
    cases hg : env.guardQueryRaise with
    | some x => rfl
    | none => simp [if_pos hterm]

/-- C2: the unexpected-failure guard of `process` transitions the admitted
order to `error` — with the diagnostic `str(e)` truncated to at most 250
characters — only if the status it re-reads at that moment is neither
`executed` nor `failed`; a row whose persisted status is `executed` or
`failed` is left completely untouched by the guard. -/
theorem claim_C2_terminal_guard (env : Env) (db : DB) (ord : Order) (e : String) :
    ((statusOf db ord.id = some "executed" ∨ statusOf db ord.id = some "failed") →
        unexpectedHandler env db (some ord) e = db) ∧
    (unexpectedHandler env db (some ord) e ≠ db →
        ¬(statusOf db ord.id = some "executed" ∨ statusOf db ord.id = some "failed") ∧
        statusOf (unexpectedHandler env db (some ord) e) ord.id = some "error" ∧
        statusMsgOf (unexpectedHandler env db (some ord) e) ord.id
          = some (some ("Core logic processing error: " ++ pyTake 250 e)) ∧
        (pyTake 250 e).length ≤ 250) := by
  constructor
  · exact unexpectedHandler_terminal_noop env db ord e
  · intro hne
    by_cases hterm : statusOf db ord.id = some "executed" ∨ statusOf db ord.id = some "failed"
    · exact absurd (unexpectedHandler_terminal_noop env db ord e hterm) hne
    · refine ⟨hterm, ?_⟩
      rw [unexpectedHandler_some_eq] at hne ⊢
      cases h0 : (ord.id == 0) with
      | true => rw [h0] at hne; simp at hne
      | false =>
        rw [h0] at hne
        simp only [Bool.false_eq_true, if_false] at hne ⊢
        cases hg : env.guardQueryRaise with
        | some x => rw [hg] at hne; simp at hne
        | none =>
          rw [hg] at hne
          simp only [if_neg hterm] at hne ⊢
          cases hu : update_order_status db ord.id none "error" none
              (some ("Core logic processing error: " ++ pyTake 250 e)) env.now with
          | none => rw [hu] at hne; simp at hne
          | some db2 =>
            rw [hu] at hne
            cases he : env.updateErrRaise with
            | some x => rw [he] at hne; simp at hne
            | none =>
              simp only
              have hfo : ∃ o, findOrder db ord.id = some o := by
                unfold update_order_status at hu
                cases hx : findOrder db ord.id with
                | none => rw [hx] at hu; cases hu
                | some o => exact ⟨o, rfl⟩
              obtain ⟨o, hfo⟩ := hfo
              rw [update_found db ord.id none "error" none _ env.now o hfo] at hu
              cases hu
              have hfind := findOrder_update_found db ord.id none "error" none
                (some ("Core logic processing error: " ++ pyTake 250 e)) env.now o hfo
              refine ⟨?_, ?_, ?_⟩
              · unfold statusOf
                rw [hfind]
                rfl
              · unfold statusMsgOf
                rw [hfind]
                rfl
              · have hlen : (pyTake 250 e).length = (e.toList.take 250).length := rfl
                rw [hlen]
                exact List.length_take_le 250 e.toList

/-- Witness for C2: on a store whose row 1 is already `executed`, the guard
leaves the store untouched. -/
theorem claim_C2_terminal_guard_witness :
    unexpectedHandler envOK dbExecuted (some rowExecuted) "boom" = dbExecuted :=
  (claim_C2_terminal_guard envOK dbExecuted rowExecuted "boom").1 (Or.inl (by decide))

/-- C7 counterexample: the claim says no behaviour of the collaborators can
make `process` raise, but `db = SessionLocal()` runs before the `try`: when
the session factory raises, the exception escapes `process`. -/
theorem claim_C7_counterexample :
    (process_telegram_signal { envOK with sessionLocal := some "session error" } pdGold
        dbEmpty).raised = some "session error" := by decide

/-- C7 (amended): provided session acquisition (`SessionLocal()`) and the
final `db.close()` do not raise, no exception propagates out of `process`,
whatever the remaining collaborator operations do. -/
theorem claim_C7_no_propagation (env : Env) (pd : ParsedData) (db : DB)
    (h1 : env.sessionLocal = none) (h2 : env.closeRaise = none) :
    (process_telegram_signal env pd db).raised = none := by
  unfold process_telegram_signal
  cases pd.telegram_message_id with
  | none => rfl
  | some mid =>
    by_cases ht : mid.truthy = false
    · simp [ht]
    · simp [ht, h1, h2]

/-- Witness for C7 (amended), on the healthy environment. -/
theorem claim_C7_no_propagation_witness :
    (process_telegram_signal envOK pdGold dbEmpty).raised = none :=
  claim_C7_no_propagation envOK pdGold dbEmpty rfl rfl

/-- C5 counterexample: an explicit `volume: 0` on the signal is persisted
as 0, not replaced by the 0.01 default (`float(order_data.get("volume",
0.01))` only defaults when the key is absent). -/
theorem claim_C5_counterexample :
    volumeOf (process_telegram_signal envOK { pdGold with volume := .num (mkRat 0 1) }
        dbEmpty).db 1 = some (mkRat 0 1) ∧ mkRat 0 1 ≠ mkRat 1 100 := by decide

/-- C5 (amended): a signal with no `volume` key is persisted with the
platform default lot 0.01; an explicit volume of 0 is stored as 0. -/
theorem claim_C5_default_volume (env : Env) (pd : ParsedData) (db : DB) (mid : MsgId)
    (h1 : pd.telegram_message_id = some mid) (ht : mid.truthy = true)
    (hs : env.sessionLocal = none) (hq : env.queryRaise = none)
    (hdup : get_order_by_telegram_id db mid.toStr = none)
    (ha : env.addRaise = none)
    (hvol : pd.volume = .absent)
    (hid : ∀ o ∈ db.orders, (o.id == db.nextId) = false) :
    volumeOf (process_telegram_signal env pd db).db db.nextId = some (mkRat 1 100) := by
  have hv : volVal pd.volume = some (mkRat 1 100) := by rw [hvol]; rfl
  rw [run_admits env pd db mid (mkRat 1 100) h1 ht hs hq hdup ha hv]
  have hcore := (afterAdmission_core env (admittedDB db pd (mkRat 1 100))
    (newOrderOf db pd (mkRat 1 100))).1
  rw [volumeOf_eq_of_core _ _ hcore db.nextId]
  unfold volumeOf admittedDB findOrder
  rw [find?_append_singleton db.orders _ _ hid]
  simp [newOrderOf]

/-- Witness for C5 (amended): `pdGold` carries no volume key and is stored
with volume 0.01. -/
theorem claim_C5_default_volume_witness :
    volumeOf (process_telegram_signal envOK pdGold dbEmpty).db dbEmpty.nextId
      = some (mkRat 1 100) :=
  claim_C5_default_volume envOK pdGold dbEmpty (.int 11) rfl rfl rfl rfl (by decide) rfl rfl
    (by decide)

/-- C3 counterexample: a stop-loss that is present but the empty string is
not convertible to a number, yet `if new_order_obj.sl:` skips it as falsy:
the backend is invoked and the order ends `executed`, not `failed`. -/
theorem claim_C3_counterexample :
    ((process_telegram_signal envOK { pdGold with sl := some "" } dbEmpty).placeCalls ≠ [] ∧
     statusOf (process_telegram_signal envOK { pdGold with sl := some "" } dbEmpty).db 1
       = some "executed") ∧
    pyFloat? "" = none := by decide

/-- C3 (amended): a signal whose stop-loss is present, non-empty, and not
convertible to a number ends with the order in terminal `failed`; the
status message names the offending value and `place_order` is never
invoked for the signal. -/
theorem claim_C3_invalid_sl (env : Env) (pd : ParsedData) (db : DB) (mid : MsgId)
    (vol : Rat) (s : String)
    (h1 : pd.telegram_message_id = some mid) (ht : mid.truthy = true)
    (hs : env.sessionLocal = none) (hq : env.queryRaise = none)
    (hdup : get_order_by_telegram_id db mid.toStr = none)
    (ha : env.addRaise = none)
    (hv : volVal pd.volume = some vol)
    (hsl : pd.sl = some s) (hne : s ≠ "") (hbad : pyFloat? s = none)
    (hu : env.updateMainRaise = none)
    (hid : ∀ o ∈ db.orders, (o.id == db.nextId) = false) :
    statusOf (process_telegram_signal env pd db).db db.nextId = some "failed" ∧
    statusMsgOf (process_telegram_signal env pd db).db db.nextId
      = some (some ("Invalid SL value: " ++ s)) ∧
    (process_telegram_signal env pd db).placeCalls = [] := by
  rw [run_admits env pd db mid vol h1 ht hs hq hdup ha hv]
  have hslr : slResolve (newOrderOf db pd vol).sl = ParamRes.invalid s := by
    show slResolve pd.sl = _
    rw [hsl]
    simp [slResolve, hne, hbad]
  have haa : afterAdmission env (admittedDB db pd vol) (newOrderOf db pd vol)
      = (applyStatus env (admittedDB db pd vol) (newOrderOf db pd vol) none "failed" none
          (some ("Invalid SL value: " ++ s)), [], []) := by
    unfold afterAdmission
    rw [hslr]
  have hfind1 : findOrder (admittedDB db pd vol) db.nextId = some (newOrderOf db pd vol) := by
    have h2 := find?_append_singleton db.orders (newOrderOf db pd vol)
      (fun o => o.id == db.nextId) hid
    have hbeq : ((newOrderOf db pd vol).id == db.nextId) = true := by simp [newOrderOf]
    simp only [hbeq, if_true] at h2
    simpa [findOrder, admittedDB] using h2
  have hupd := update_found (admittedDB db pd vol) db.nextId none "failed"
    none (some ("Invalid SL value: " ++ s)) env.now (newOrderOf db pd vol) hfind1
  have hfind2 := findOrder_update_found (admittedDB db pd vol) db.nextId none
    "failed" none (some ("Invalid SL value: " ++ s)) env.now (newOrderOf db pd vol) hfind1
  have hI : (newOrderOf db pd vol).id = db.nextId := rfl
  refine ⟨?_, ?_, ?_⟩
  · show statusOf (afterAdmission env (admittedDB db pd vol) (newOrderOf db pd vol)).1
        db.nextId = some "failed"
    rw [haa]
    show statusOf (applyStatus env (admittedDB db pd vol) (newOrderOf db pd vol) none "failed"
        none (some ("Invalid SL value: " ++ s))) db.nextId = some "failed"
    unfold applyStatus
    rw [hI, hupd, hu]
    show statusOf { admittedDB db pd vol with
        orders := setFirst (admittedDB db pd vol).orders db.nextId
          (applyUpdate none "failed" none (some ("Invalid SL value: " ++ s)) env.now) }
        db.nextId = some "failed"
    unfold statusOf
    rw [hfind2]
    rfl
  · show statusMsgOf (afterAdmission env (admittedDB db pd vol) (newOrderOf db pd vol)).1
        db.nextId = some (some ("Invalid SL value: " ++ s))
    rw [haa]
    show statusMsgOf (applyStatus env (admittedDB db pd vol) (newOrderOf db pd vol) none
        "failed" none (some ("Invalid SL value: " ++ s))) db.nextId
      = some (some ("Invalid SL value: " ++ s))
    unfold applyStatus
    rw [hI, hupd, hu]
    show statusMsgOf { admittedDB db pd vol with
        orders := setFirst (admittedDB db pd vol).orders db.nextId
          (applyUpdate none "failed" none (some ("Invalid SL value: " ++ s)) env.now) }
        db.nextId = some (some ("Invalid SL value: " ++ s))
    unfold statusMsgOf
    rw [hfind2]
    rfl
  · show (afterAdmission env (admittedDB db pd vol) (newOrderOf db pd vol)).2.1 = []
    rw [haa]

/-- Witness for C3 (amended): the `invalid_sl_value` example from the
repository's own test block ends `failed` without a backend call. -/
theorem claim_C3_invalid_sl_witness :
    statusOf (process_telegram_signal envOK { pdGold with sl := some "invalid_sl_value" }
        dbEmpty).db dbEmpty.nextId = some "failed" ∧
    statusMsgOf (process_telegram_signal envOK { pdGold with sl := some "invalid_sl_value" }
        dbEmpty).db dbEmpty.nextId = some (some ("Invalid SL value: " ++ "invalid_sl_value")) ∧
    (process_telegram_signal envOK { pdGold with sl := some "invalid_sl_value" }
        dbEmpty).placeCalls = [] :=
  claim_C3_invalid_sl envOK { pdGold with sl := some "invalid_sl_value" } dbEmpty (.int 11)
    (mkRat 1 100) "invalid_sl_value" rfl rfl rfl rfl (by decide) rfl rfl rfl (by decide)
    (by decide) rfl (by decide)

/-- Unfolding equation for `process` once the id is known present. -/
theorem process_some_eq (env : Env) (pd : ParsedData) (db : DB) (mid : MsgId)
    (hm : pd.telegram_message_id = some mid) :
    process_telegram_signal env pd db =
      (if mid.truthy = false then
        { db := db, placeCalls := [], sends := [], sessionOpened := false, raised := none }
       else
         match env.sessionLocal with
         | some e =>
           { db := db, placeCalls := [], sends := [], sessionOpened := true, raised := some e }
         | none =>
           { db := (tryBody env mid pd db).1, placeCalls := (tryBody env mid pd db).2.1,
             sends := (tryBody env mid pd db).2.2, sessionOpened := true,
             raised := env.closeRaise }) := by
  unfold process_telegram_signal
  rw [hm]

/-- Mapped immutable projections agree when the cores agree. -/
theorem map_tmid_of_core (l l2 : List Order) (hc : l.map coreOf = l2.map coreOf) :
    l.map (fun o => o.telegram_message_id) = l2.map (fun o => o.telegram_message_id) := by
  have hmm := congrArg (List.map (fun c : OrderCore => c.telegram_message_id)) hc
  simpa [List.map_map] using hmm

/-- C1: two `process` calls whose signals share the same (truthy)
`telegram_message_id`, against a store not yet containing that id, persist
exactly one order carrying the id: the first call inserts it, and the
second call — whatever its environment does — hits the dedup lookup,
performs no store mutation at all and never reaches the backend. -/
theorem claim_C1_dedup_idempotent (env1 env2 : Env) (pd1 pd2 : ParsedData) (db : DB)
    (mid : MsgId) (vol : Rat)
    (h1 : pd1.telegram_message_id = some mid) (h2 : pd2.telegram_message_id = some mid)
    (ht : mid.truthy = true)
    (hdup : get_order_by_telegram_id db mid.toStr = none)
    (hs : env1.sessionLocal = none) (hq : env1.queryRaise = none) (ha : env1.addRaise = none)
    (hv : volVal pd1.volume = some vol) :
    ((process_telegram_signal env1 pd1 db).db.orders.map
        (fun o => o.telegram_message_id)).count mid.toStr = 1 ∧
    (process_telegram_signal env2 pd2 (process_telegram_signal env1 pd1 db).db).db
      = (process_telegram_signal env1 pd1 db).db ∧
    (process_telegram_signal env2 pd2 (process_telegram_signal env1 pd1 db).db).placeCalls
      = [] := by
  have htm : tmidStr pd1 = mid.toStr := by unfold tmidStr; rw [h1]
  have hmap : (process_telegram_signal env1 pd1 db).db.orders.map
      (fun o => o.telegram_message_id)
      = db.orders.map (fun o => o.telegram_message_id) ++ [mid.toStr] := by
    rw [run_admits env1 pd1 db mid vol h1 ht hs hq hdup ha hv]
    have hcore := (afterAdmission_core env1 (admittedDB db pd1 vol) (newOrderOf db pd1 vol)).1
    show (afterAdmission env1 (admittedDB db pd1 vol) (newOrderOf db pd1 vol)).1.orders.map
        (fun o => o.telegram_message_id) = _
    rw [map_tmid_of_core _ _ hcore]
    show (db.orders ++ [newOrderOf db pd1 vol]).map (fun o => o.telegram_message_id) = _
    rw [List.map_append]
    simp [newOrderOf, htm]
  refine ⟨?_, ?_⟩
  · rw [hmap, List.count_append]
    have hzero : (db.orders.map (fun o => o.telegram_message_id)).count mid.toStr = 0 := by
      rw [List.count_eq_zero]
      intro hmem
      obtain ⟨o, ho, hoe⟩ := List.mem_map.mp hmem
      have hdup2 : db.orders.find? (fun o => o.telegram_message_id == mid.toStr) = none := hdup
      exact (List.find?_eq_none.mp hdup2 o ho) (by simp [hoe])
    rw [hzero]
    simp
  · have hmem : mid.toStr ∈ (process_telegram_signal env1 pd1 db).db.orders.map
        (fun o => o.telegram_message_id) := by rw [hmap]; simp
    obtain ⟨o, ho, hoe⟩ := List.mem_map.mp hmem
    have hsome : ((process_telegram_signal env1 pd1 db).db.orders.find?
        (fun o => o.telegram_message_id == mid.toStr)).isSome := by
      rw [List.find?_isSome]
      exact ⟨o, ho, by simp [hoe]⟩
    obtain ⟨ex, hex2⟩ := Option.isSome_iff_exists.mp hsome
    have hget : get_order_by_telegram_id (process_telegram_signal env1 pd1 db).db mid.toStr
        = some ex := hex2
    rw [process_some_eq env2 pd2 _ mid h2]
    rw [if_neg (by simp [ht])]
    cases hsl2 : env2.sessionLocal with
    | some e => exact ⟨rfl, rfl⟩
    | none =>
      unfold tryBody
      cases hq2 : env2.queryRaise with
      | some e => exact ⟨rfl, rfl⟩
      | none =>
        rw [hget]
        exact ⟨rfl, rfl⟩

/-- Witness for C1: processing the same signal twice against an empty
store leaves exactly one `GOLD` order behind. -/
theorem claim_C1_dedup_idempotent_witness :
    ((process_telegram_signal envOK pdGold dbEmpty).db.orders.map
        (fun o => o.telegram_message_id)).count (MsgId.int 11).toStr = 1 ∧
    (process_telegram_signal envOK pdGold (process_telegram_signal envOK pdGold dbEmpty).db).db
      = (process_telegram_signal envOK pdGold dbEmpty).db ∧
    (process_telegram_signal envOK pdGold
        (process_telegram_signal envOK pdGold dbEmpty).db).placeCalls = [] :=
  claim_C1_dedup_idempotent envOK envOK pdGold pdGold dbEmpty (.int 11) (mkRat 1 100)
    rfl rfl rfl (by decide) rfl rfl rfl rfl

/-- C8: the `order_send` request carries an `sl` (resp. `tp`) field exactly
when the recorded stop-loss (resp. first take-profit) converts to a
strictly positive number — a zero or negative level is dropped from the
request, not sent — and the backend call still goes through: with a
successful backend the order ends `executed` rather than being failed over
the non-positive levels. -/
theorem claim_C8_nonpositive_sl_tp_omitted (env : Env) (pd : ParsedData) (db : DB)
    (mid : MsgId) (vol : Rat) (s t : String) (ts : List String) (v w : Rat)
    (tk : Tick) (r : SendResult)
    (h1 : pd.telegram_message_id = some mid) (ht : mid.truthy = true)
    (hs : env.sessionLocal = none) (hq : env.queryRaise = none)
    (hdup : get_order_by_telegram_id db mid.toStr = none)
    (ha : env.addRaise = none)
    (hv : volVal pd.volume = some vol)
    (hsl : pd.sl = some s) (hne : s ≠ "") (hslv : pyFloat? s = some v)
    (htp : pd.tps = some (t :: ts)) (htv : pyFloat? t = some w)
    (hmr : env.mt5Raise = none)
    (hsym : env.mt5.symbolInfo = some { visible := true })
    (htk : env.mt5.tick = some tk)
    (hact : pyUpper pd.action = "BUY")
    (hask : ¬ tk.ask = 0)
    (hsend : env.mt5.orderSendResult = some r)
    (hret : r.retcode = TRADE_RETCODE_DONE)
    (hord : ¬ r.order = 0)
    (hu : env.updateMainRaise = none)
    (hid : ∀ o ∈ db.orders, (o.id == db.nextId) = false) :
    ((process_telegram_signal env pd db).sends.map (fun q => (q.sl, q.tp)))
        = [((if v > 0 then some v else none), (if w > 0 then some w else none))] ∧
    statusOf (process_telegram_signal env pd db).db db.nextId = some "executed" := by
  rw [run_admits env pd db mid vol h1 ht hs hq hdup ha hv]
  have hslr : slResolve (newOrderOf db pd vol).sl = ParamRes.ok (some v) := by
    show slResolve pd.sl = _
    rw [hsl]
    simp [slResolve, hne, hslv]
  have htpr : tpResolve (newOrderOf db pd vol).tps = ParamRes.ok (some w) := by
    show tpResolve pd.tps = _
    rw [htp]
    simp [tpResolve, htv]
  have hup : pyUpper (pyUpper pd.action) = "BUY" := by rw [hact]; decide
  have hplace : place_order env.mt5 (newOrderOf db pd vol).instrument
      (pyUpper (newOrderOf db pd vol).action) (newOrderOf db pd vol).volume (some v) (some w)
      = (some { symbol := pd.instrument, volume := vol, order_kind := ORDER_TYPE_BUY,
                price := tk.ask, sl := if v > 0 then some v else none,
                tp := if w > 0 then some w else none },
         some { order_id := some r.order, price := some r.price, comment := some r.comment,
                errMark := false }) := by
    show place_order env.mt5 pd.instrument (pyUpper pd.action) vol (some v) (some w) = _
    simp [place_order, hsym, htk, hsend, hup, hask, hret]
  have haa : afterAdmission env (admittedDB db pd vol) (newOrderOf db pd vol)
      = (outcomeUpdate env (admittedDB db pd vol) (newOrderOf db pd vol)
           (some { order_id := some r.order, price := some r.price, comment := some r.comment,
                   errMark := false }),
         [({ instrument := (newOrderOf db pd vol).instrument,
             order_type := pyUpper (newOrderOf db pd vol).action,
             volume := (newOrderOf db pd vol).volume, sl := some v, tp := some w } : PlaceCall)],
         [{ symbol := pd.instrument, volume := vol, order_kind := ORDER_TYPE_BUY,
            price := tk.ask, sl := if v > 0 then some v else none,
            tp := if w > 0 then some w else none }]) := by
    unfold afterAdmission
    rw [hslr, htpr, hmr]
    show (outcomeUpdate env (admittedDB db pd vol) (newOrderOf db pd vol)
        (place_order env.mt5 (newOrderOf db pd vol).instrument
          (pyUpper (newOrderOf db pd vol).action) (newOrderOf db pd vol).volume
          (some v) (some w)).2,
      [({ instrument := (newOrderOf db pd vol).instrument,
          order_type := pyUpper (newOrderOf db pd vol).action,
          volume := (newOrderOf db pd vol).volume, sl := some v, tp := some w } : PlaceCall)],
      (place_order env.mt5 (newOrderOf db pd vol).instrument
          (pyUpper (newOrderOf db pd vol).action) (newOrderOf db pd vol).volume
          (some v) (some w)).1.toList) = _
    rw [hplace]
    rfl
  have hfind1 : findOrder (admittedDB db pd vol) db.nextId = some (newOrderOf db pd vol) := by
    have h2 := find?_append_singleton db.orders (newOrderOf db pd vol)
      (fun o => o.id == db.nextId) hid
    have hbeq : ((newOrderOf db pd vol).id == db.nextId) = true := by simp [newOrderOf]
    simp only [hbeq, if_true] at h2
    simpa [findOrder, admittedDB] using h2
  have hupd := update_found (admittedDB db pd vol) db.nextId (some r.order) "executed"
    (some r.price) (some "Order executed successfully.") env.now (newOrderOf db pd vol) hfind1
  have hfind2 := findOrder_update_found (admittedDB db pd vol) db.nextId (some r.order)
    "executed" (some r.price) (some "Order executed successfully.") env.now
    (newOrderOf db pd vol) hfind1
  have hI : (newOrderOf db pd vol).id = db.nextId := rfl
  refine ⟨?_, ?_⟩
  · show ((afterAdmission env (admittedDB db pd vol) (newOrderOf db pd vol)).2.2.map
        (fun q => (q.sl, q.tp)))
      = [((if v > 0 then some v else none), (if w > 0 then some w else none))]
    rw [haa]
    rfl
  · show statusOf (afterAdmission env (admittedDB db pd vol) (newOrderOf db pd vol)).1
        db.nextId = some "executed"
    rw [haa]
    show statusOf (outcomeUpdate env (admittedDB db pd vol) (newOrderOf db pd vol)
        (some { order_id := some r.order, price := some r.price, comment := some r.comment,
                errMark := false })) db.nextId = some "executed"
    unfold outcomeUpdate
    show statusOf (if r.order ≠ 0 then
        applyStatus env (admittedDB db pd vol) (newOrderOf db pd vol) (some r.order)
          "executed" (some r.price) (some "Order executed successfully.")
      else
        applyStatus env (admittedDB db pd vol) (newOrderOf db pd vol) none "failed" none
          (some (backendFailMsg (some
            { order_id := some r.order, price := some r.price,
              comment := some r.comment, errMark := false })))) db.nextId = some "executed"
    rw [if_pos hord]
    show statusOf (applyStatus env (admittedDB db pd vol) (newOrderOf db pd vol)
        (some r.order) "executed" (some r.price) (some "Order executed successfully."))
        db.nextId = some "executed"
    unfold applyStatus
    rw [hI, hupd, hu]
    show statusOf { admittedDB db pd vol with
        orders := setFirst (admittedDB db pd vol).orders db.nextId
          (applyUpdate (some r.order) "executed" (some r.price)
            (some "Order executed successfully.") env.now) }
        db.nextId = some "executed"
    unfold statusOf
    rw [hfind2]
    rfl

/-- Witness for C8: stop-loss `0` and first take-profit `-1` are omitted
from the request and the order still executes. -/
theorem claim_C8_nonpositive_sl_tp_omitted_witness :
    ((process_telegram_signal envOK
        { pdGold with action := "Buy", sl := some "0", tps := some ["-1", "x"] }
        dbEmpty).sends.map (fun q => (q.sl, q.tp)))
      = [((if mkRat 0 1 > 0 then some (mkRat 0 1) else none),
          (if mkRat (-1) 1 > 0 then some (mkRat (-1) 1) else none))] ∧
    statusOf (process_telegram_signal envOK
        { pdGold with action := "Buy", sl := some "0", tps := some ["-1", "x"] }
        dbEmpty).db dbEmpty.nextId = some "executed" :=
  claim_C8_nonpositive_sl_tp_omitted envOK
    { pdGold with action := "Buy", sl := some "0", tps := some ["-1", "x"] } dbEmpty
    (.int 11) (mkRat 1 100) "0" "-1" ["x"] (mkRat 0 1) (mkRat (-1) 1)
    { ask := mkRat 2051 1, bid := mkRat 2050 1 }
    { retcode := 10009, order := 777, price := mkRat 2050 1, volume := mkRat 1 100,
      deal := 5, comment := "done", request_id := 1 }
    rfl rfl rfl rfl (by decide) rfl rfl rfl (by decide) (by decide) rfl (by decide)
    rfl rfl rfl (by decide) (by decide) rfl rfl (by decide) rfl (by decide)
